import Mathlib

/-!
Verification of the persistence command of the CircEye repository
(`src/src-tauri/src/commands.rs`).

The command under study is:

  pub fn save_visualization(path: String, data: Vec<u8>) -> Result<SaveResult, String> {
      let path_buf = PathBuf::from(&path);
      fs::write(&path_buf, &data)
          .map_err(|e| format!("Failed to write file: {}", e))?;
      Ok(SaveResult { success: true, path: path_buf.to_string_lossy().to_string() })
  }

We embed the command shallowly.  The only external effect is the single
`std::fs::write` call, which we model by an explicit filesystem state and a
`fsWrite` transition following the documented POSIX semantics of
`std::fs::write` (open with create+truncate, write all bytes): the write
succeeds iff the path is non-empty, is not itself an existing directory, and
its parent directory exists and is writable; on success the file at the path
is created or fully replaced with the payload and nothing else changes; on
failure nothing changes and a platform error description is produced.
-/

/-- A byte payload, the embedding of `Vec<u8>`.  The command treats the bytes
as opaque, so we represent each byte as a `Nat`. -/
abbrev Bytes := List Nat

/-- A filesystem state: an association list from path strings to file
contents, the set of existing directories, and the set of directories the
process may write into.  The empty string stands for the current directory
(the parent of a relative path with a single component). -/
structure FS where
  files : List (String × Bytes)
  dirs : List String
  writableDirs : List String
deriving DecidableEq, Repr

/-- Look up the contents of the file at path `p`, if one exists. -/
def getFile : List (String × Bytes) → String → Option Bytes
  | [], _ => none
  | (q, c) :: rest, p => if q = p then some c else getFile rest p

/-- Create the file at path `p` with contents `d`, or fully replace its
contents if it already exists. -/
def setFile : List (String × Bytes) → String → Bytes → List (String × Bytes)
  | [], p, d => [(p, d)]
  | (q, c) :: rest, p, d => if q = p then (p, d) :: rest else (q, c) :: setFile rest p d

/-- The parent directory of a path string: everything before the last `/`
separator, `""` (the current directory) for a single-component relative
path, and `none` for the empty path, which has no parent.  This mirrors
`std::path::Path::parent` on the paths the command receives. -/
def parentDir (p : String) : Option String :=
  if p = "" then none
  else
    let rev := p.data.reverse
    if Char.ofNat 47 ∈ rev then
      some (String.mk ((rev.dropWhile (fun c => c ≠ Char.ofNat 47)).drop 1).reverse)
    else some ""

/-- Model of `std::fs::write path data`: succeeds iff the path is non-empty,
is not an existing directory, and its parent directory exists and is
writable.  On success the file at the path is created or truncated and then
holds exactly `data`; on failure the state is unchanged (the caller keeps
the old state) and the platform I/O error description is returned. -/
def fsWrite (fs : FS) (path : String) (data : Bytes) : Except String FS :=
  if path = "" then Except.error "No such file or directory (os error 2)"
  else if path ∈ fs.dirs then Except.error "Is a directory (os error 21)"
  else
    match parentDir path with
    | none => Except.error "No such file or directory (os error 2)"
    | some d =>
      if d ∈ fs.dirs then
        if d ∈ fs.writableDirs then
          Except.ok { fs with files := setFile fs.files path data }
        else Except.error "Permission denied (os error 13)"
      else Except.error "No such file or directory (os error 2)"

/-- The success payload of the command, the embedding of the Rust struct
`SaveResult { success: bool, path: String }`. -/
structure SaveResult where
  success : Bool
  path : String
deriving DecidableEq, Repr

/-- `PathBuf::from(&path).to_string_lossy().to_string()` for a `path` that
is a Rust `String`.  A Rust `String` is always valid UTF-8, so building a
`PathBuf` from it and converting back with `to_string_lossy` reproduces the
original string character for character. -/
def to_string_lossy (p : String) : String := p

/-- The embedding of `save_visualization`: run the write, turn a write error
into the string `"Failed to write file: " ++ e` (the `format!` call) leaving
the filesystem as it was, and on success return
`SaveResult { success := true, path := to_string_lossy path }` together with
the updated filesystem. -/
def save_visualization (fs : FS) (path : String) (data : Bytes) :
    Except String SaveResult × FS :=
  match fsWrite fs path data with
  | Except.error e => (Except.error ("Failed to write file: " ++ e), fs)
  | Except.ok fs' => (Except.ok { success := true, path := to_string_lossy path }, fs')

/-- Whether a `Result` is the `Ok` case. -/
def isOk {α : Type} : Except String α → Bool
  | Except.ok _ => true
  | Except.error _ => false

theorem getFile_setFile_self (l : List (String × Bytes)) (p : String) (d : Bytes) :
    getFile (setFile l p d) p = some d := by
  induction l with
  | nil => simp [setFile, getFile]
  | cons hd tl ih =>
    obtain ⟨q, c⟩ := hd
    by_cases h : q = p <;> simp [setFile, getFile, h, ih]

theorem getFile_setFile_ne (l : List (String × Bytes)) (p q : String) (d : Bytes)
    (h : q ≠ p) : getFile (setFile l p d) q = getFile l q := by
  induction l with
  | nil => simp [setFile, getFile, Ne.symm h]
  | cons hd tl ih =>
    obtain ⟨r, c⟩ := hd
    by_cases hr : r = p
    · subst hr
      simp [setFile, getFile, Ne.symm h]
    · simp [setFile, getFile, hr, ih]

theorem setFile_setFile (l : List (String × Bytes)) (p : String) (d d2 : Bytes) :
    setFile (setFile l p d) p d2 = setFile l p d2 := by
  induction l with
  | nil => simp [setFile]
  | cons hd tl ih =>
    obtain ⟨q, c⟩ := hd
    by_cases h : q = p <;> simp [setFile, h, ih]

theorem parentDir_ne_empty {p : String} {d : String} (h : parentDir p = some d) :
    p ≠ "" := by
  intro hp
  rw [hp] at h
  simp [parentDir] at h

theorem fsWrite_eq_ok (fs : FS) (p : String) (data : Bytes) (d : String)
    (hp : parentDir p = some d) (h1 : p ∉ fs.dirs) (h2 : d ∈ fs.dirs)
    (h3 : d ∈ fs.writableDirs) :
    fsWrite fs p data = Except.ok { fs with files := setFile fs.files p data } := by
  simp [fsWrite, parentDir_ne_empty hp, h1, hp, h2, h3]

theorem fsWrite_ok_inv (fs : FS) (p : String) (data : Bytes) (fs' : FS)
    (h : fsWrite fs p data = Except.ok fs') :
    fs' = { fs with files := setFile fs.files p data } ∧ p ∉ fs.dirs ∧
      ∃ d, parentDir p = some d ∧ d ∈ fs.dirs ∧ d ∈ fs.writableDirs := by
  by_cases h0 : p = ""
  · simp [fsWrite, h0] at h
  · by_cases h1 : p ∈ fs.dirs
    · simp [fsWrite, h0, h1] at h
    · cases hp : parentDir p with
      | none => simp [fsWrite, h0, h1, hp] at h
      | some d =>
        by_cases h2 : d ∈ fs.dirs
        · by_cases h3 : d ∈ fs.writableDirs
          · refine ⟨?_, h1, d, rfl, h2, h3⟩
            simp [fsWrite, h0, h1, hp, h2, h3] at h
            exact h.symm
          · simp [fsWrite, h0, h1, hp, h2, h3] at h
        · simp [fsWrite, h0, h1, hp, h2] at h

theorem save_ok_inv (fs : FS) (p : String) (data : Bytes) (r : SaveResult)
    (h : (save_visualization fs p data).1 = Except.ok r) :
    r = { success := true, path := to_string_lossy p } ∧
    (save_visualization fs p data).2 = { fs with files := setFile fs.files p data } := by
  cases hw : fsWrite fs p data with
  | error e => simp [save_visualization, hw] at h
  | ok fs' =>
    obtain ⟨hfs', h1, d, hp, h2, h3⟩ := fsWrite_ok_inv fs p data fs' hw
    have h' : ({ success := true, path := to_string_lossy p } : SaveResult) = r := by
      simpa [save_visualization, hw] using h
    subst hfs'
    exact ⟨h'.symm, by simp [save_visualization, hw]⟩

/-- A concrete filesystem used to evaluate the command: an empty file table,
a writable current directory `""` containing a non-writable subdirectory `d`
and a writable subdirectory `out`. -/
def fsDemo : FS := { files := [], dirs := ["", "d", "out"], writableDirs := ["", "out"] }

/-- Claim C1, counterexample: the path `"d"` names an existing directory, its
parent (the current directory `""`) exists and is writable, yet
`save_visualization` returns an error rather than a `SaveResult` and writes
no file, so the claim quantified over every path with an existing writable
parent is false. -/
theorem C1_counterexample :
    parentDir "d" = some "" ∧ "" ∈ fsDemo.dirs ∧ "" ∈ fsDemo.writableDirs ∧
    (save_visualization fsDemo "d" [0, 1, 2]).1 =
      Except.error ("Failed to write file: " ++ "Is a directory (os error 21)") ∧
    getFile (save_visualization fsDemo "d" [0, 1, 2]).2.files "d" = none := by
  refine ⟨by decide, by decide, by decide, by rfl, by rfl⟩

/-- Claim C1 (amended): for every path whose parent directory exists and is
writable and which is not itself an existing directory,
`save_visualization path data` returns a `SaveResult` and the file at the
path afterwards contains exactly the bytes of `data`, including when `data`
is empty. -/
theorem C1_save_writes_data (fs : FS) (p : String) (data : Bytes) (d : String)
    (hp : parentDir p = some d) (h2 : d ∈ fs.dirs) (h3 : d ∈ fs.writableDirs)
    (h1 : p ∉ fs.dirs) :
    (∃ r : SaveResult, (save_visualization fs p data).1 = Except.ok r) ∧
    getFile (save_visualization fs p data).2.files p = some data := by
  have hw := fsWrite_eq_ok fs p data d hp h1 h2 h3
  refine ⟨⟨{ success := true, path := to_string_lossy p }, ?_⟩, ?_⟩ <;>
    simp [save_visualization, hw, getFile_setFile_self]

/-- Claim C1 witness: the amended theorem applied at a concrete input, a
write of three bytes into the existing writable directory `out`. -/
theorem C1_save_writes_data_witness :
    (∃ r : SaveResult, (save_visualization fsDemo "out/render.bin" [0, 1, 2]).1 =
      Except.ok r) ∧
    getFile (save_visualization fsDemo "out/render.bin" [0, 1, 2]).2.files
      "out/render.bin" = some [0, 1, 2] :=
  C1_save_writes_data fsDemo "out/render.bin" [0, 1, 2] "out" (by decide) (by decide)
    (by decide) (by decide)

/-- Claim C2: `save_visualization` returns an error exactly when the
underlying filesystem write fails, and in that case the error value is the
fixed prefix `"Failed to write file: "` followed by the underlying I/O
failure description; the failure is returned as a value, never thrown. -/
theorem C2_error_iff_write_fails (fs : FS) (p : String) (data : Bytes) :
    isOk (save_visualization fs p data).1 = isOk (fsWrite fs p data) ∧
    ∀ e, fsWrite fs p data = Except.error e →
      (save_visualization fs p data).1 = Except.error ("Failed to write file: " ++ e) := by
  constructor
  · cases h : fsWrite fs p data <;> simp [save_visualization, h, isOk]
  · intro e he
    simp [save_visualization, he]

/-- Claim C2 witness: the theorem applied at a concrete failing input, a
write below a parent directory that does not exist. -/
theorem C2_error_iff_write_fails_witness :
    (save_visualization fsDemo "missing_dir/x.bin" []).1 =
      Except.error ("Failed to write file: " ++ "No such file or directory (os error 2)") :=
  (C2_error_iff_write_fails fsDemo "missing_dir/x.bin" []).2
    "No such file or directory (os error 2)" (by rfl)

/-- Claim C3: when a save to a path succeeds, saving different bytes to the
same path afterwards leaves the file holding exactly the second payload —
the second write fully overwrites the first, never a mixture. -/
theorem C3_second_save_overwrites (fs : FS) (p : String) (data data2 : Bytes)
    (h : isOk (save_visualization fs p data).1 = true) :
    getFile (save_visualization (save_visualization fs p data).2 p data2).2.files p =
      some data2 := by
  cases hw : fsWrite fs p data with
  | error e => simp [save_visualization, hw, isOk] at h
  | ok fs' =>
    obtain ⟨hfs', h1, d, hp, h2, h3⟩ := fsWrite_ok_inv fs p data fs' hw
    subst hfs'
    have hw2 := fsWrite_eq_ok { fs with files := setFile fs.files p data } p data2 d hp
      h1 h2 h3
    simp [save_visualization, hw, hw2, getFile_setFile_self]

/-- Claim C3 witness: the theorem applied at a concrete input, overwriting a
one-byte file with a two-byte payload. -/
theorem C3_second_save_overwrites_witness :
    getFile (save_visualization (save_visualization fsDemo "out/a.bin" [1]).2 "out/a.bin"
      [2, 3]).2.files "out/a.bin" = some [2, 3] :=
  C3_second_save_overwrites fsDemo "out/a.bin" [1] [2, 3] (by decide)

/-- Claim C4: on every successful invocation the `path` field of the
returned `SaveResult` is the normalized (`to_string_lossy`) form of the
input path, and reading that returned path yields exactly the bytes that
were just written — normalization does not change the target. -/
theorem C4_result_path_resolves (fs : FS) (p : String) (data : Bytes) (r : SaveResult)
    (h : (save_visualization fs p data).1 = Except.ok r) :
    r.path = to_string_lossy p ∧
    getFile (save_visualization fs p data).2.files r.path = some data := by
  obtain ⟨hr, hfs⟩ := save_ok_inv fs p data r h
  subst hr
  exact ⟨rfl, by simp [hfs, to_string_lossy, getFile_setFile_self]⟩

/-- Claim C4 witness: the theorem applied at a concrete successful write. -/
theorem C4_result_path_resolves_witness :
    SaveResult.path { success := true, path := to_string_lossy "out/b.bin" } =
      to_string_lossy "out/b.bin" ∧
    getFile (save_visualization fsDemo "out/b.bin" [4, 5]).2.files
      (SaveResult.path { success := true, path := to_string_lossy "out/b.bin" }) =
      some [4, 5] :=
  C4_result_path_resolves fsDemo "out/b.bin" [4, 5]
    { success := true, path := to_string_lossy "out/b.bin" } (by rfl)

/-- Claim C5: every `SaveResult` the command returns has `success = true`; a
result with `success = false` is never produced. -/
theorem C5_success_always_true (fs : FS) (p : String) (data : Bytes) (r : SaveResult)
    (h : (save_visualization fs p data).1 = Except.ok r) : r.success = true := by
  obtain ⟨hr, -⟩ := save_ok_inv fs p data r h
  subst hr
  rfl

/-- Claim C5 witness: the theorem applied at a concrete successful write. -/
theorem C5_success_always_true_witness :
    SaveResult.success { success := true, path := to_string_lossy "out/c.bin" } = true :=
  C5_success_always_true fsDemo "out/c.bin" [6]
    { success := true, path := to_string_lossy "out/c.bin" } (by rfl)

/-- Claim C6: when the parent directory of the path does not exist, the
command returns an error and the filesystem is unchanged — no file is
created at the path and no missing parent directory is created. -/
theorem C6_missing_parent_fails (fs : FS) (p : String) (data : Bytes)
    (h : ∀ d, parentDir p = some d → d ∉ fs.dirs) :
    (∃ e, (save_visualization fs p data).1 = Except.error e) ∧
    (save_visualization fs p data).2 = fs := by
  cases hw : fsWrite fs p data with
  | error e =>
    exact ⟨⟨"Failed to write file: " ++ e, by simp [save_visualization, hw]⟩,
      by simp [save_visualization, hw]⟩
  | ok fs' =>
    obtain ⟨-, -, d, hp, h2, -⟩ := fsWrite_ok_inv fs p data fs' hw
    exact absurd h2 (h d hp)

/-- Claim C6 witness: the theorem applied at a concrete path below a parent
directory that does not exist. -/
theorem C6_missing_parent_fails_witness :
    (∃ e, (save_visualization fsDemo "missing/y.bin" [7]).1 = Except.error e) ∧
    (save_visualization fsDemo "missing/y.bin" [7]).2 = fsDemo :=
  C6_missing_parent_fails fsDemo "missing/y.bin" [7] (by
    intro d hd
    have hpar : parentDir "missing/y.bin" = some "missing" := by decide
    rw [hpar] at hd
    rw [← Option.some.inj hd]
    decide)

/-- Claim C7: the command modifies at most the file at the given path — for
every other path the file table is unchanged, and the directory structure
and writability are unchanged, on the success and the failure outcome
alike. -/
theorem C7_frame (fs : FS) (p : String) (data : Bytes) (q : String) (hq : q ≠ p) :
    getFile (save_visualization fs p data).2.files q = getFile fs.files q ∧
    (save_visualization fs p data).2.dirs = fs.dirs ∧
    (save_visualization fs p data).2.writableDirs = fs.writableDirs := by
  cases hw : fsWrite fs p data with
  | error e => simp [save_visualization, hw]
  | ok fs' =>
    obtain ⟨hfs', -, -⟩ := fsWrite_ok_inv fs p data fs' hw
    subst hfs'
    simp [save_visualization, hw, getFile_setFile_ne fs.files p q data hq]

/-- Claim C7 witness: the theorem applied at a concrete write and a concrete
unrelated path. -/
theorem C7_frame_witness :
    getFile (save_visualization fsDemo "out/d.bin" [8]).2.files "other.txt" =
      getFile fsDemo.files "other.txt" ∧
    (save_visualization fsDemo "out/d.bin" [8]).2.dirs = fsDemo.dirs ∧
    (save_visualization fsDemo "out/d.bin" [8]).2.writableDirs = fsDemo.writableDirs :=
  C7_frame fsDemo "out/d.bin" [8] "other.txt" (by decide)

/-- Claim C8: invoking the command twice with the same path and data leaves
the filesystem — in particular the file content at the path — exactly as
one invocation does. -/
theorem C8_idempotent (fs : FS) (p : String) (data : Bytes) :
    (save_visualization (save_visualization fs p data).2 p data).2 =
      (save_visualization fs p data).2 := by
  cases hw : fsWrite fs p data with
  | error e => simp [save_visualization, hw]
  | ok fs' =>
    obtain ⟨hfs', h1, d, hp, h2, h3⟩ := fsWrite_ok_inv fs p data fs' hw
    subst hfs'
    have hw2 := fsWrite_eq_ok { fs with files := setFile fs.files p data } p data d hp
      h1 h2 h3
    simp [save_visualization, hw, hw2, setFile_setFile]

/-- Claim C9: with the empty string as path the command fails — returning
the fixed prefix followed by the platform's missing-path description — and
the filesystem is unchanged, so no file is created anywhere. -/
theorem C9_empty_path_fails (fs : FS) (data : Bytes) :
    (save_visualization fs "" data).1 =
      Except.error ("Failed to write file: " ++ "No such file or directory (os error 2)") ∧
    (save_visualization fs "" data).2 = fs :=
  ⟨rfl, rfl⟩

/-- Claim C10: for every input path (a Rust `String`, hence valid UTF-8),
the `path` field of a successful `SaveResult` is character-for-character the
input path: no canonicalization, symlink resolution, or
relative-to-absolute conversion happens before it is returned. -/
theorem C10_path_returned_verbatim (fs : FS) (p : String) (data : Bytes) (r : SaveResult)
    (h : (save_visualization fs p data).1 = Except.ok r) : r.path = p := by
  obtain ⟨hr, -⟩ := save_ok_inv fs p data r h
  subst hr
  rfl

/-- Claim C10 witness: the theorem applied at a concrete successful write. -/
theorem C10_path_returned_verbatim_witness :
    SaveResult.path { success := true, path := to_string_lossy "out/e.bin" } =
      "out/e.bin" :=
  C10_path_returned_verbatim fsDemo "out/e.bin" [9]
    { success := true, path := to_string_lossy "out/e.bin" } (by rfl)
